import Mathlib

/-!
Shallow embedding of `src/core/frontend/src/render/webgl/ShaderProgram.ts`
(classes `Uniform`, `ProgramUniform`, `GraphicUniform`, `Attribute`,
`ShaderProgram`, `ShaderProgramExecutor`).

Modelling decisions, all taken directly from the TypeScript source:
* Device (WebGL) calls are recorded as a trace of `GLEvent`s; the device
  context is an oracle `GLImpl` of boolean outcomes (does `createShader`
  return non-null, does a source compile, does the link succeed, does a
  uniform location resolve).
* A `WebGLProgram` object is a `Nat` handle; `_glProgram?` is `Option Nat`.
* The binding callbacks (`_bind`) are opaque user functions; their only
  observable effect here is the device bind call they issue, recorded as an
  event carrying the descriptor's name.
* JavaScript object identity (the `===` test in
  `ShaderProgramExecutor.changeProgram`) is modelled by a heap: programs
  live in a list and are referred to by index (`ProgId`).
* In TypeScript, `ProgramUniform.bind` and `ShaderProgramExecutor.setProgram`
  are declared to return `void`; a call to them evaluates to `undefined`,
  and `undefined` is falsy.  The constant `undefinedTruthy` below records
  the truthiness of that `undefined` value, so the conditionals
  `if (!uniform.bind(params))` in `ShaderProgram.use` and
  `if (this.setProgram(program))` in `ShaderProgramExecutor.drawInterrupt`
  are translated verbatim.
-/

/-- Truthiness of the value of a TypeScript call whose return type is
`void`: such a call evaluates to `undefined`, which is falsy. -/
def undefinedTruthy : Bool := false

/-- Shader stage, from `GL.ShaderType` (`Vertex` / `Fragment`). -/
inductive ShaderType where
  | Vertex
  | Fragment
deriving DecidableEq, Repr

/-- Observable device (WebGL) calls issued by the code under `src/`.
Each constructor records one `gl.*` call or one bind-callback invocation. -/
inductive GLEvent where
  | createShader (t : ShaderType)
  | shaderSource (t : ShaderType) (src : String)
  | compileShader (t : ShaderType)
  | attachShader (t : ShaderType)
  | linkProgram
  | useProgram (g : Option Nat)
  | deleteProgram
  | bindProgramUniform (name : String)
  | bindGraphicUniform (name : String)
  | bindAttribute (name : String)
deriving DecidableEq, Repr

/-- Oracle for the outcomes of device calls: whether `gl.createShader`
returns non-null, whether a given source text compiles, whether the link
succeeds, and the uniform/attribute location lookup. -/
structure GLImpl where
  createShaderOk : ShaderType → Bool
  compileOk : String → Bool
  linkOk : String → String → Bool
  uniformLoc : String → Option Nat
  attribLoc : String → Option Nat

/-- Compilation status of a shader program (`const enum CompileStatus`). -/
inductive CompileStatus where
  | Success
  | Failure
  | Uncompiled
deriving DecidableEq, Repr

/-- State of a `ProgramUniform`: its `_name` and optional `_handle`.
The `_bind` callback is opaque; invoking it is recorded as a
`bindProgramUniform` event. -/
structure ProgramUniform where
  name : String
  handle : Option Nat
deriving DecidableEq, Repr

/-- State of a `GraphicUniform`: its `_name` and optional `_handle`. -/
structure GraphicUniform where
  name : String
  handle : Option Nat
deriving DecidableEq, Repr

/-- State of an `Attribute`: its `_name` and optional `_handle`. -/
structure Attribute where
  name : String
  handle : Option Nat
deriving DecidableEq, Repr

/-- State of a `ShaderProgram` object. -/
structure ShaderProgram where
  vertSource : String
  fragSource : String
  glProgram : Option Nat
  inUse : Bool
  status : CompileStatus
  programUniforms : List ProgramUniform
  graphicUniforms : List GraphicUniform
  attributes : List Attribute
deriving DecidableEq, Repr

/-- Result of `ShaderProgram.compile`: returned boolean, updated program
state, and the device calls issued. -/
structure CompileResult where
  ok : Bool
  prog : ShaderProgram
  events : List GLEvent
deriving DecidableEq, Repr

/-- Result of `ShaderProgram.use`. -/
structure UseResult where
  ok : Bool
  prog : ShaderProgram
  events : List GLEvent
deriving DecidableEq, Repr

/-- Constructor of `ShaderProgram`: stores the sources, calls
`gl.createProgram()` which may return null (`createOk = false`), and starts
`Uncompiled`, not in use, with no registered descriptors. -/
def ShaderProgram.construct (vertSource fragSource : String)
    (createOk : Bool) (newHandle : Nat) : ShaderProgram :=
  { vertSource := vertSource
    fragSource := fragSource
    glProgram := if createOk then some newHandle else none
    inUse := false
    status := CompileStatus.Uncompiled
    programUniforms := []
    graphicUniforms := []
    attributes := [] }

/-- Method `ShaderProgram.dispose(gl)`: if the device program object exists,
delete it and reset status to `Uncompiled`. -/
def ShaderProgram.dispose (p : ShaderProgram) : ShaderProgram × List GLEvent :=
  match p.glProgram with
  | some _ =>
      ({ p with glProgram := none, status := CompileStatus.Uncompiled },
       [GLEvent.deleteProgram])
  | none => (p, [])

/-- Method `ShaderProgram.addProgramUniform` (appends to `_programUniforms`;
the `_handle` of a freshly constructed descriptor is `undefined`). -/
def ShaderProgram.addProgramUniform (p : ShaderProgram) (name : String) :
    ShaderProgram :=
  { p with programUniforms := p.programUniforms ++ [{ name := name, handle := none }] }

/-- Method `ShaderProgram.addGraphicUniform`. -/
def ShaderProgram.addGraphicUniform (p : ShaderProgram) (name : String) :
    ShaderProgram :=
  { p with graphicUniforms := p.graphicUniforms ++ [{ name := name, handle := none }] }

/-- Method `ShaderProgram.addAttribute`. -/
def ShaderProgram.addAttribute (p : ShaderProgram) (name : String) :
    ShaderProgram :=
  { p with attributes := p.attributes ++ [{ name := name, handle := none }] }

/-- Method `Uniform.compile(gl, prog)` (here on a `ProgramUniform`): if the
program's device object exists, resolve the handle via the device lookup;
return whether the handle is now valid.  Note: nothing in
`ShaderProgram.compile` calls this method. -/
def ProgramUniform.compileU (gl : GLImpl) (prog : ShaderProgram)
    (u : ProgramUniform) : ProgramUniform × Bool :=
  match prog.glProgram with
  | some _ =>
      let h := gl.uniformLoc u.name
      ({ u with handle := h }, h.isSome)
  | none => (u, u.handle.isSome)

/-- Selects `vertSource` or `fragSource` per
`GL.ShaderType.Vertex === type ? this.vertSource : this.fragSource`. -/
def ShaderProgram.source (p : ShaderProgram) : ShaderType → String
  | ShaderType.Vertex => p.vertSource
  | ShaderType.Fragment => p.fragSource

/-- Private method `ShaderProgram.compileShader(gl, type)`: create a shader
object (may fail), upload the source, compile, query compile status; returns
the shader on success (modelled as `Option Unit`) plus the device calls
issued. -/
def ShaderProgram.compileShaderStage (gl : GLImpl) (p : ShaderProgram)
    (t : ShaderType) : Option Unit × List GLEvent :=
  if gl.createShaderOk t then
    let src := p.source t
    let succeeded := gl.compileOk src
    ((if succeeded then some () else none),
     [GLEvent.createShader t, GLEvent.shaderSource t src, GLEvent.compileShader t])
  else
    (none, [GLEvent.createShader t])

/-- Private method `ShaderProgram.linkProgram(gl, vert, frag)`: attach both
shaders, link, query link status. -/
def ShaderProgram.linkStage (gl : GLImpl) (p : ShaderProgram) :
    Bool × List GLEvent :=
  match p.glProgram with
  | none => (false, [])
  | some _ =>
      (gl.linkOk p.vertSource p.fragSource,
       [GLEvent.attachShader ShaderType.Vertex,
        GLEvent.attachShader ShaderType.Fragment,
        GLEvent.linkProgram])

/-- Method `ShaderProgram.compile(gl)`: terminal statuses return the cached
boolean with no device calls; an invalid program (no device object) becomes
`Failure` with no device calls; otherwise both shader stages are compiled,
then linked, and the status becomes terminal accordingly. -/
def ShaderProgram.compile (gl : GLImpl) (p : ShaderProgram) : CompileResult :=
  match p.status with
  | CompileStatus.Failure => { ok := false, prog := p, events := [] }
  | CompileStatus.Success => { ok := true, prog := p, events := [] }
  | CompileStatus.Uncompiled =>
      match p.glProgram with
      | none =>
          { ok := false
            prog := { p with status := CompileStatus.Failure }
            events := [] }
      | some _ =>
          let vert := p.compileShaderStage gl ShaderType.Vertex
          let frag := p.compileShaderStage gl ShaderType.Fragment
          match vert.1, frag.1 with
          | some _, some _ =>
              let lnk := p.linkStage gl
              if lnk.1 then
                { ok := true
                  prog := { p with status := CompileStatus.Success }
                  events := vert.2 ++ frag.2 ++ lnk.2 }
              else
                { ok := false
                  prog := { p with status := CompileStatus.Failure }
                  events := vert.2 ++ frag.2 ++ lnk.2 }
          | _, _ =>
              { ok := false
                prog := { p with status := CompileStatus.Failure }
                events := vert.2 ++ frag.2 }

/-- Method `ProgramUniform.bind(params)`: invokes the stored callback only
when the handle is resolved.  The TypeScript method returns `void`. -/
def ProgramUniform.bind (u : ProgramUniform) : List GLEvent :=
  match u.handle with
  | some _ => [GLEvent.bindProgramUniform u.name]
  | none => []

/-- Method `GraphicUniform.bind(params)`. -/
def GraphicUniform.bind (u : GraphicUniform) : List GLEvent :=
  match u.handle with
  | some _ => [GLEvent.bindGraphicUniform u.name]
  | none => []

/-- Method `Attribute.bind(params)`. -/
def Attribute.bind (a : Attribute) : List GLEvent :=
  match a.handle with
  | some _ => [GLEvent.bindAttribute a.name]
  | none => []

/-- The loop `for (const uniform of this._programUniforms) { if
(!uniform.bind(params)) return false; } return true;` in
`ShaderProgram.use`.  `uniform.bind(params)` is a `void` call, so the value
tested is `undefined`; `undefinedTruthy` is its truthiness.  The recursive
branch is the loop's continue path. -/
def bindProgramUniforms : List ProgramUniform → Bool × List GLEvent
  | [] => (true, [])
  | u :: rest =>
      let ev := u.bind
      if undefinedTruthy then
        let r := bindProgramUniforms rest
        (r.1, ev ++ r.2)
      else
        (false, ev)

/-- Method `ShaderProgram.use(params)`: compile if necessary (fail if the
compile fails), re-check the device object, mark in use, issue
`gl.useProgram`, then run the program-uniform loop; its boolean is the
return value. -/
def ShaderProgram.use (gl : GLImpl) (p : ShaderProgram) : UseResult :=
  let c := p.compile gl
  if !c.ok then
    { ok := false, prog := c.prog, events := c.events }
  else
    match c.prog.glProgram with
    | none => { ok := false, prog := c.prog, events := c.events }
    | some g =>
        let p2 := { c.prog with inUse := true }
        let b := bindProgramUniforms p2.programUniforms
        { ok := b.1
          prog := p2
          events := c.events ++ [GLEvent.useProgram (some g)] ++ b.2 }

/-- Method `ShaderProgram.endUse(gl)`: clear the flag and issue
`gl.useProgram(null)`. -/
def ShaderProgram.endUse (p : ShaderProgram) : ShaderProgram × List GLEvent :=
  ({ p with inUse := false }, [GLEvent.useProgram none])

/-- Method `ShaderProgram.draw(params)`: bind every graphic uniform, then
every attribute, each in registration order. -/
def ShaderProgram.draw (p : ShaderProgram) : List GLEvent :=
  p.graphicUniforms.flatMap GraphicUniform.bind ++ p.attributes.flatMap Attribute.bind

/-- Heap index standing for a `ShaderProgram` object reference. -/
abbrev ProgId := Nat

/-- Combined state of a `ShaderProgramExecutor` and the programs it may
touch: `heap` is the object store, `current` is the executor's `_program?`
field (a reference, i.e. a heap index, or `undefined`). -/
structure ExecState where
  heap : List ShaderProgram
  current : Option ProgId
deriving DecidableEq, Repr

/-- Placeholder used by `getProg` for an out-of-range index; never reached
in the concrete states used below. -/
def emptyProgram : ShaderProgram :=
  ShaderProgram.construct "" "" false 0

/-- Dereference a program reference in the heap. -/
def getProg (s : ExecState) (i : ProgId) : ShaderProgram :=
  s.heap.getD i emptyProgram

/-- Store back a mutated program object. -/
def putProg (s : ExecState) (i : ProgId) (p : ShaderProgram) : ExecState :=
  { s with heap := s.heap.set i p }

/-- Result of `ShaderProgramExecutor.changeProgram`. -/
structure ChangeResult where
  ok : Bool
  state : ExecState
  events : List GLEvent
deriving DecidableEq, Repr

/-- Private method `ShaderProgramExecutor.changeProgram(program?)`: no-op if
the reference is identical (`===`) to the current one; otherwise `endUse`
the old program if any, install the new reference, and `use` it; on `use`
failure the reference is cleared and the method reports failure. -/
def ShaderProgramExecutor.changeProgram (gl : GLImpl) (s : ExecState)
    (pid : Option ProgId) : ChangeResult :=
  if s.current = pid then
    { ok := true, state := s, events := [] }
  else
    let step1 : ExecState × List GLEvent :=
      match s.current with
      | some old =>
          let r := (getProg s old).endUse
          (putProg s old r.1, r.2)
      | none => (s, [])
    let s1 := { step1.1 with current := pid }
    match pid with
    | none => { ok := true, state := s1, events := step1.2 }
    | some nid =>
        let u := (getProg s1 nid).use gl
        let s2 := putProg s1 nid u.prog
        if u.ok then
          { ok := true, state := s2, events := step1.2 ++ u.events }
        else
          { ok := false
            state := { s2 with current := none }
            events := step1.2 ++ u.events }

/-- Method `ShaderProgramExecutor.setProgram(program)`: delegates to
`changeProgram` and discards its boolean (the TypeScript method returns
`void`). -/
def ShaderProgramExecutor.setProgram (gl : GLImpl) (s : ExecState)
    (pid : ProgId) : ExecState × List GLEvent :=
  let r := ShaderProgramExecutor.changeProgram gl s (some pid)
  (r.state, r.events)

/-- Constructor `ShaderProgramExecutor(target, pass, program?)`: builds the
params and immediately calls `changeProgram(program)`. -/
def ShaderProgramExecutor.construct (gl : GLImpl) (heap : List ShaderProgram)
    (pid : Option ProgId) : ExecState × List GLEvent :=
  let r := ShaderProgramExecutor.changeProgram gl { heap := heap, current := none } pid
  (r.state, r.events)

/-- Method `ShaderProgramExecutor.dispose()`: `changeProgram(undefined)`. -/
def ShaderProgramExecutor.dispose (gl : GLImpl) (s : ExecState) :
    ExecState × List GLEvent :=
  let r := ShaderProgramExecutor.changeProgram gl s none
  (r.state, r.events)

/-- Method `ShaderProgramExecutor.draw(params)`: delegates to the current
program's `draw` when one is held. -/
def ShaderProgramExecutor.draw (s : ExecState) : List GLEvent :=
  match s.current with
  | some i => (getProg s i).draw
  | none => []

/-- Method `ShaderProgramExecutor.drawInterrupt(params)`.  The technique
lookup `params.target.techniques.getTechnique(...).getShader(TechniqueFlags.defaults)`
lives outside `src/`; its result — the resolved program reference — is the
parameter `resolved`.  The body is then `if (this.setProgram(program)) {
this.draw(params); }`, where `setProgram` is a `void` call, so the tested
value is `undefined`. -/
def ShaderProgramExecutor.drawInterrupt (gl : GLImpl) (s : ExecState)
    (resolved : ProgId) : ExecState × List GLEvent :=
  let r := ShaderProgramExecutor.setProgram gl s resolved
  if undefinedTruthy then
    (r.1, r.2 ++ ShaderProgramExecutor.draw r.1)
  else
    r

/-- Operations an executor client can perform between construction and
disposal. -/
inductive ExecOp where
  | set (pid : ProgId)
  | drawPrim
  | interrupt (resolved : ProgId)
  | disposeExec
deriving DecidableEq, Repr

/-- One client operation on the executor. -/
def runOp (gl : GLImpl) (s : ExecState) : ExecOp → ExecState × List GLEvent
  | ExecOp.set pid => ShaderProgramExecutor.setProgram gl s pid
  | ExecOp.drawPrim => (s, ShaderProgramExecutor.draw s)
  | ExecOp.interrupt pid => ShaderProgramExecutor.drawInterrupt gl s pid
  | ExecOp.disposeExec => ShaderProgramExecutor.dispose gl s

/-- A sequence of client operations, with the concatenated device trace. -/
def runOps (gl : GLImpl) (s : ExecState) : List ExecOp → ExecState × List GLEvent
  | [] => (s, [])
  | op :: rest =>
      let r := runOp gl s op
      let r2 := runOps gl r.1 rest
      (r2.1, r.2 ++ r2.2)

/-- Number of programs in the heap whose `_inUse` flag is set. -/
def countInUse (s : ExecState) : Nat :=
  (s.heap.filter fun p => p.inUse).length

/-- The device's "currently active program" slot after one call. -/
def applyEvent (d : Option Nat) : GLEvent → Option Nat
  | GLEvent.useProgram g => g
  | _ => d

/-- The device's active-program slot after a trace of calls. -/
def applyEvents (d : Option Nat) (evs : List GLEvent) : Option Nat :=
  evs.foldl applyEvent d

/-- Program state after `n` successive `compile` calls. -/
def afterCompiles (gl : GLImpl) (p : ShaderProgram) : Nat → ShaderProgram
  | 0 => p
  | n + 1 => ((afterCompiles gl p n).compile gl).prog

/-- Result of the `n`-th `compile` call (numbered from 1). -/
def nthCompile (gl : GLImpl) (p : ShaderProgram) (n : Nat) : CompileResult :=
  (afterCompiles gl p (n - 1)).compile gl

/-- Device oracle on which every shader compiles, links, and every location
resolves. -/
def glAllOk : GLImpl :=
  { createShaderOk := fun _ => true
    compileOk := fun _ => true
    linkOk := fun _ _ => true
    uniformLoc := fun _ => some 0
    attribLoc := fun _ => some 0 }

/-- A fresh valid program with two registered program-scoped uniforms. -/
def progTwoUniforms : ShaderProgram :=
  ((ShaderProgram.construct "v" "f" true 0).addProgramUniform "u1").addProgramUniform "u2"

/-- A fresh valid program with no registered descriptors. -/
def progPlain : ShaderProgram :=
  ShaderProgram.construct "v2" "f2" true 1

/-- A program state with no program uniforms and one graphic uniform whose
handle is resolved, so a `draw` on it would issue a device bind. -/
def progDrawable : ShaderProgram :=
  { vertSource := "v"
    fragSource := "f"
    glProgram := some 0
    inUse := false
    status := CompileStatus.Uncompiled
    programUniforms := []
    graphicUniforms := [{ name := "g1", handle := some 5 }]
    attributes := [] }

/-- A fresh valid program with one registered graphic uniform. -/
def progOneGraphic : ShaderProgram :=
  (ShaderProgram.construct "v" "f" true 0).addGraphicUniform "g1"

/-- A program whose compilation has already failed (status `Failure`). -/
def progFailed : ShaderProgram :=
  { vertSource := "v"
    fragSource := "bad"
    glProgram := some 3
    inUse := false
    status := CompileStatus.Failure
    programUniforms := [{ name := "u1", handle := none }]
    graphicUniforms := []
    attributes := [] }

/-- An executor currently holding the program at heap index 0. -/
def execHolding : ExecState :=
  { heap := [progDrawable], current := some 0 }

/-- An in-use program state whose graphic uniform and attribute handles are
all resolved. -/
def progInUseResolved : ShaderProgram :=
  { vertSource := "v"
    fragSource := "f"
    glProgram := some 0
    inUse := true
    status := CompileStatus.Success
    programUniforms := []
    graphicUniforms := [{ name := "g1", handle := some 1 }, { name := "g2", handle := some 2 }]
    attributes := [{ name := "a1", handle := some 3 }] }

/-- A program whose `gl.createProgram()` call returned null at
construction. -/
def progNullDevice : ShaderProgram :=
  ShaderProgram.construct "v" "f" false 7

/-- An executor heap holding one drawable program, executor idle. -/
def execDrawable : ExecState := { heap := [progDrawable], current := none }

/-- Device calls that `ShaderProgram.draw` can issue (graphic-uniform and
attribute binds). -/
def isDescriptorBind : GLEvent → Bool
  | GLEvent.bindGraphicUniform _ => true
  | GLEvent.bindAttribute _ => true
  | _ => false

/-- Compile with cached `Success` status returns the cached boolean with no
device calls, leaving the program unchanged. -/
theorem compile_of_success {gl : GLImpl} {p : ShaderProgram}
    (h : p.status = CompileStatus.Success) :
    p.compile gl = { ok := true, prog := p, events := [] } := by
  simp [ShaderProgram.compile, h]

/-- Compile with cached `Failure` status returns the cached boolean with no
device calls, leaving the program unchanged. -/
theorem compile_of_failure {gl : GLImpl} {p : ShaderProgram}
    (h : p.status = CompileStatus.Failure) :
    p.compile gl = { ok := false, prog := p, events := [] } := by
  simp [ShaderProgram.compile, h]

/-- After any `compile` call the status is terminal and the returned boolean
matches it. -/
theorem compile_post (gl : GLImpl) (p : ShaderProgram) :
    ((p.compile gl).ok = true ∧ (p.compile gl).prog.status = CompileStatus.Success) ∨
    ((p.compile gl).ok = false ∧ (p.compile gl).prog.status = CompileStatus.Failure) := by
  unfold ShaderProgram.compile
  cases hs : p.status
  case Success => simp [hs]
  case Failure => simp [hs]
  case Uncompiled =>
    cases hg : p.glProgram
    case none => simp
    case some g =>
      dsimp only
      cases hv : (ShaderProgram.compileShaderStage gl p ShaderType.Vertex).1 <;>
        cases hf : (ShaderProgram.compileShaderStage gl p ShaderType.Fragment).1 <;>
          simp [hv, hf]
      split <;> simp

/-- A second `compile` after any first one returns the same boolean,
changes nothing, and issues no device calls. -/
theorem compile_stable (gl : GLImpl) (p : ShaderProgram) :
    (p.compile gl).prog.compile gl
      = { ok := (p.compile gl).ok, prog := (p.compile gl).prog, events := [] } := by
  rcases compile_post gl p with ⟨hok, hst⟩ | ⟨hok, hst⟩
  · rw [compile_of_success hst, hok]
  · rw [compile_of_failure hst, hok]

/-- The program state after one or more `compile` calls is the state after
the first. -/
theorem afterCompiles_of_pos (gl : GLImpl) (p : ShaderProgram) :
    ∀ n, 1 ≤ n → afterCompiles gl p n = (p.compile gl).prog := by
  intro n hn
  induction n with
  | zero => omega
  | succ m ih =>
      cases Nat.eq_or_lt_of_le hn with
      | inl h =>
          have hm : m = 0 := by omega
          subst hm
          simp [afterCompiles]
      | inr h =>
          have hm : 1 ≤ m := by omega
          simp [afterCompiles, ih hm, compile_stable]

/-- When every graphic uniform's handle is resolved, the bind loop issues
one bind per uniform, in list order. -/
theorem flatMap_graphic_of_handles (l : List GraphicUniform)
    (h : ∀ u ∈ l, u.handle ≠ none) :
    l.flatMap GraphicUniform.bind
      = l.map fun u => GLEvent.bindGraphicUniform u.name := by
  induction l with
  | nil => rfl
  | cons u rest ih =>
      have hu : u.handle ≠ none := h u (List.mem_cons_self u rest)
      obtain ⟨v, hv⟩ := Option.ne_none_iff_exists.mp hu
      simp only [List.flatMap_cons, List.map_cons,
        ih fun x hx => h x (List.mem_cons_of_mem u hx)]
      simp [GraphicUniform.bind, ← hv]

/-- When every attribute's handle is resolved, the bind loop issues one bind
per attribute, in list order. -/
theorem flatMap_attr_of_handles (l : List Attribute)
    (h : ∀ a ∈ l, a.handle ≠ none) :
    l.flatMap Attribute.bind = l.map fun a => GLEvent.bindAttribute a.name := by
  induction l with
  | nil => rfl
  | cons a rest ih =>
      have ha : a.handle ≠ none := h a (List.mem_cons_self a rest)
      obtain ⟨v, hv⟩ := Option.ne_none_iff_exists.mp ha
      simp only [List.flatMap_cons, List.map_cons,
        ih fun x hx => h x (List.mem_cons_of_mem a hx)]
      simp [Attribute.bind, ← hv]

/-- Updating the status field to the value it already has is the identity. -/
theorem eta_status {p : ShaderProgram} (h : p.status = CompileStatus.Failure) :
    { p with status := CompileStatus.Failure } = p := by
  cases p
  simp_all

/-- Claim C1 (code bug evidence).  The claim says a successfully compiling
program's `use(params)` returns true and binds every program-scoped uniform.
In the code, `ProgramUniform.bind` returns `void`, so the loop in `use`
tests `!undefined`, which is true: on a valid program with two registered
program uniforms, `compile` succeeds, yet `use` returns false — after
already marking the program in use. -/
theorem c1_use_fails_after_successful_compile :
    (ShaderProgram.compile glAllOk progTwoUniforms).ok = true ∧
    (ShaderProgram.use glAllOk progTwoUniforms).ok = false ∧
    (ShaderProgram.use glAllOk progTwoUniforms).prog.inUse = true := by
  decide

/-- Claim C2 (code bug evidence).  The claim says `drawInterrupt` switches
to the resolved program and then draws the primitive.  In the code
`setProgram` returns `void`, so `if (this.setProgram(program))` tests
`undefined` and the draw is never reached: on an executor whose heap holds
a program with a resolved graphic uniform, `drawInterrupt` activates the
program (`current = some 0`) yet its trace contains no descriptor bind,
although a `draw` on the resulting state would issue one. -/
theorem c2_drawInterrupt_never_draws :
    (ShaderProgramExecutor.drawInterrupt glAllOk execDrawable 0).1.current = some 0 ∧
    ((ShaderProgramExecutor.drawInterrupt glAllOk execDrawable 0).2.filter isDescriptorBind) = [] ∧
    ShaderProgramExecutor.draw (ShaderProgramExecutor.drawInterrupt glAllOk execDrawable 0).1
      = [GLEvent.bindGraphicUniform "g1"] := by
  decide

/-- Claim C3.  Compile is idempotent: for every program and device oracle,
the N-th `compile` call with N ≥ 2 (and no intervening dispose) returns the
same boolean as the first call and issues no device calls at all. -/
theorem c3_compile_idempotent (gl : GLImpl) (p : ShaderProgram) (n : Nat)
    (h : 2 ≤ n) :
    (nthCompile gl p n).ok = (nthCompile gl p 1).ok ∧
      (nthCompile gl p n).events = [] := by
  have h1 : afterCompiles gl p (n - 1) = (p.compile gl).prog :=
    afterCompiles_of_pos gl p (n - 1) (by omega)
  unfold nthCompile
  rw [h1, compile_stable]
  simp [afterCompiles]

/-- Witness for claim C3 at a concrete program and N = 2. -/
theorem c3_witness :
    2 ≤ 2 ∧ ((nthCompile glAllOk progPlain 2).ok = (nthCompile glAllOk progPlain 1).ok ∧
      (nthCompile glAllOk progPlain 2).events = []) :=
  ⟨by decide, c3_compile_idempotent glAllOk progPlain 2 (by decide)⟩

/-- Claim C4 (code bug evidence).  The claim says at most one program is in
use at any point between the executor's construction and disposal.  A `use`
that fails in the program-uniform loop leaves `_inUse` set while the
executor drops its reference, so the next `setProgram` does not `endUse` it:
after construction and two `setProgram` calls, two heap programs report
themselves in use. -/
theorem c4_two_programs_in_use :
    countInUse
      (runOps glAllOk
        (ShaderProgramExecutor.construct glAllOk [progTwoUniforms, progPlain] none).1
        [ExecOp.set 0, ExecOp.set 1]).1 = 2 := by
  decide

/-- Claim C5 (code bug evidence).  The claim says that after `dispose()` the
device's active program is null and no program the executor activated is
still in use.  After a `setProgram` whose `use` failed in the uniform loop,
the executor's reference is already empty, so `dispose` is a no-op: the
device's active-program slot still holds the activated program's handle and
the program is still marked in use. -/
theorem c5_dispose_leaves_device_bound :
    (runOps glAllOk
        (ShaderProgramExecutor.construct glAllOk [progTwoUniforms] none).1
        [ExecOp.set 0, ExecOp.disposeExec]).1.current = none ∧
    applyEvents none
      (runOps glAllOk
        (ShaderProgramExecutor.construct glAllOk [progTwoUniforms] none).1
        [ExecOp.set 0, ExecOp.disposeExec]).2 = some 0 ∧
    countInUse
      (runOps glAllOk
        (ShaderProgramExecutor.construct glAllOk [progTwoUniforms] none).1
        [ExecOp.set 0, ExecOp.disposeExec]).1 = 1 := by
  decide

/-- Claim C6.  When compilation has already failed (status `Failure`),
`use(params)` returns false, leaves the program unchanged (so the in-use
flag is not set), and issues no device call whatsoever. -/
theorem c6_use_after_failed_compile (gl : GLImpl) (p : ShaderProgram)
    (h : p.status = CompileStatus.Failure) :
    p.use gl = { ok := false, prog := p, events := [] } := by
  unfold ShaderProgram.use
  rw [compile_of_failure h]
  simp

/-- Witness for claim C6 at a concrete failed program. -/
theorem c6_witness :
    progFailed.status = CompileStatus.Failure ∧
      progFailed.use glAllOk = { ok := false, prog := progFailed, events := [] } :=
  ⟨by decide, c6_use_after_failed_compile glAllOk progFailed (by decide)⟩

/-- Claim C7.  When the executor's current program reference already equals
the argument, `setProgram` leaves the whole state unchanged and issues zero
device calls. -/
theorem c7_setProgram_identical_noop (gl : GLImpl) (s : ExecState) (pid : ProgId)
    (h : s.current = some pid) :
    ShaderProgramExecutor.setProgram gl s pid = (s, []) := by
  unfold ShaderProgramExecutor.setProgram ShaderProgramExecutor.changeProgram
  rw [h]
  simp

/-- Witness for claim C7 at a concrete executor state. -/
theorem c7_witness :
    execHolding.current = some 0 ∧
      ShaderProgramExecutor.setProgram glAllOk execHolding 0 = (execHolding, []) :=
  ⟨by decide, c7_setProgram_identical_noop glAllOk execHolding 0 (by decide)⟩

/-- Claim C8.  For an in-use program whose descriptor handles are resolved,
`draw` issues one bind per graphic uniform, in registration order, followed
by one bind per attribute, in registration order — every uniform bind
before any attribute bind. -/
theorem c8_draw_uniforms_before_attributes (p : ShaderProgram)
    (_h1 : p.inUse = true)
    (h2 : ∀ u ∈ p.graphicUniforms, u.handle ≠ none)
    (h3 : ∀ a ∈ p.attributes, a.handle ≠ none) :
    p.draw = (p.graphicUniforms.map fun u => GLEvent.bindGraphicUniform u.name)
      ++ (p.attributes.map fun a => GLEvent.bindAttribute a.name) := by
  unfold ShaderProgram.draw
  rw [flatMap_graphic_of_handles p.graphicUniforms h2,
    flatMap_attr_of_handles p.attributes h3]

/-- Witness for claim C8 at a concrete in-use program with two graphic
uniforms and one attribute, all resolved. -/
theorem c8_witness :
    progInUseResolved.inUse = true ∧
    (∀ u ∈ progInUseResolved.graphicUniforms, u.handle ≠ none) ∧
    (∀ a ∈ progInUseResolved.attributes, a.handle ≠ none) ∧
    progInUseResolved.draw
      = (progInUseResolved.graphicUniforms.map fun u => GLEvent.bindGraphicUniform u.name)
        ++ (progInUseResolved.attributes.map fun a => GLEvent.bindAttribute a.name) :=
  ⟨by decide, by decide, by decide,
    c8_draw_uniforms_before_attributes progInUseResolved (by decide) (by decide) (by decide)⟩

/-- Claim C9 (code bug evidence).  The claim says every registered
descriptor's handle is resolved during the program's compilation.  The body
of `ShaderProgram.compile` never calls `Uniform.compile` or
`Attribute.compile` on the registered descriptors: on a valid program with
one registered graphic uniform, `compile` succeeds yet the uniform's handle
is still unresolved. -/
theorem c9_compile_leaves_handles_unresolved :
    (ShaderProgram.compile glAllOk progOneGraphic).ok = true ∧
    (ShaderProgram.compile glAllOk progOneGraphic).prog.graphicUniforms.length = 1 ∧
    ((ShaderProgram.compile glAllOk progOneGraphic).prog.graphicUniforms.all
        fun u => u.handle = none) = true := by
  decide

/-- Claim C10.  When the device program object is absent (creation returned
null, or the program was disposed — in both cases the status is not
`Success`), `compile` returns false, sets status to `Failure`, and issues no
device call; and the N-th compile for every N ≥ 1 returns false with no
device calls. -/
theorem c10_compile_without_device_program (gl : GLImpl) (p : ShaderProgram)
    (n : Nat) (h1 : p.glProgram = none) (h2 : p.status ≠ CompileStatus.Success)
    (h3 : 1 ≤ n) :
    p.compile gl = { ok := false
                     prog := { p with status := CompileStatus.Failure }
                     events := [] } ∧
    (nthCompile gl p n).ok = false ∧ (nthCompile gl p n).events = [] := by
  have hfirst : p.compile gl =
      { ok := false, prog := { p with status := CompileStatus.Failure }, events := [] } := by
    cases hs : p.status
    case Success => exact absurd hs h2
    case Failure => rw [compile_of_failure hs, eta_status hs]
    case Uncompiled =>
      unfold ShaderProgram.compile
      rw [hs, h1]
  refine ⟨hfirst, ?_⟩
  cases Nat.eq_or_lt_of_le h3 with
  | inl h =>
      unfold nthCompile
      rw [← h]
      simp [afterCompiles, hfirst]
  | inr h =>
      have hafter : afterCompiles gl p (n - 1) = (p.compile gl).prog :=
        afterCompiles_of_pos gl p (n - 1) (by omega)
      have hst : (p.compile gl).prog.status = CompileStatus.Failure := by
        rw [hfirst]
      unfold nthCompile
      rw [hafter, compile_of_failure hst]
      constructor <;> rfl

/-- Witness for claim C10 at a concrete program whose device program
creation returned null, with N = 2. -/
theorem c10_witness :
    progNullDevice.glProgram = none ∧
    progNullDevice.status ≠ CompileStatus.Success ∧ 1 ≤ 2 ∧
    (progNullDevice.compile glAllOk
        = { ok := false
            prog := { progNullDevice with status := CompileStatus.Failure }
            events := [] } ∧
      (nthCompile glAllOk progNullDevice 2).ok = false ∧
      (nthCompile glAllOk progNullDevice 2).events = []) :=
  ⟨by decide, by decide, by decide,
    c10_compile_without_device_program glAllOk progNullDevice 2 (by decide) (by decide) (by decide)⟩
